import Mathlib

set_option autoImplicit false

namespace OuPlugin

/-- An LDAP directory entry: a distinguished name (rendered as a string) plus
a mapping from attribute name to a list of string values. This embeds the
entries built by ldap.make_entry in ou.py. -/
structure LdapEntry where
  dn : String
  attrs : List (String × List String)
deriving Repr, DecidableEq

/-- The directory state: entries keyed by their DN string. -/
abbrev Dir := List (String × LdapEntry)

/-- A directory round-trip issued by the plugin: a read requesting a given
attribute list, or a write of the entry at a given DN. -/
inductive LdapOp where
  | getOp (dn : String) (attrlist : List String)
  | addOp (dn : String)
deriving Repr, DecidableEq

/-- The errors of the ipalib errors module that ou.py handles or raises:
errors.NotFound (with its reason text), errors.DuplicateEntry, and any other
exception, carried with its message. -/
inductive LdapError where
  | notFound (reason : String)
  | duplicateEntry
  | otherError (msg : String)
deriving Repr, DecidableEq

/-- ldap.get_entry at a DN: the stored entry, or none for errors.NotFound. -/
def getEntry : Dir → String → Option LdapEntry
  | [], _ => none
  | (k, e) :: rest, d => if k = d then some e else getEntry rest d

/-- Outcome model for the container write. Under normal directory semantics
the write succeeds when the DN is free and fails with DuplicateEntry when it
is taken; concurrentCreate models a concurrent caller landing an identical
entry between the probe and the write; genericFailure injects any other
directory failure with the given message. -/
inductive AddBehavior where
  | normal
  | concurrentCreate
  | genericFailure (msg : String)
deriving Repr, DecidableEq

/-- ldap.add_entry: returns the outcome together with the directory after
the call. -/
def addEntry : AddBehavior → Dir → LdapEntry → Except LdapError Unit × Dir
  | .normal, dir, e =>
      if (getEntry dir e.dn).isSome then (.error .duplicateEntry, dir)
      else (.ok (), (e.dn, e) :: dir)
  | .concurrentCreate, dir, e => (.error .duplicateEntry, (e.dn, e) :: dir)
  | .genericFailure msg, dir, _ => (.error (.otherError msg), dir)

/-- DN(ou.container_dn, api.env.basedn) at ou.py line 130: the pair
(cn, altou) in front of the configured base DN renders as
cn=altou,basedn. -/
def containerDN (basedn : String) : String := "cn=altou," ++ basedn

/-- The minimal container entry built at ou.py lines 135 to 139: object
classes nsContainer and top, naming attribute cn=altou. -/
def containerEntry (container_dn : String) : LdapEntry :=
  { dn := container_dn
    attrs := [("objectclass", ["nsContainer", "top"]), ("cn", ["altou"])] }

/-- str(e) for the exception interpolated into the NotFound reason at
ou.py lines 145 to 150. -/
def errStr : LdapError → String
  | .notFound r => r
  | .duplicateEntry => "This entry already exists"
  | .otherError m => m

/-- The container provisioning step of ou_add.pre_callback, ou.py lines 132
to 150: probe the container DN requesting only objectclass; on NotFound,
build the minimal container entry and write it, passing on DuplicateEntry
and wrapping any other failure in errors.NotFound with a reason naming the
container DN and the cause. Returns the outcome, the directory after, and
the trace of directory calls issued. -/
def ensureContainer (beh : AddBehavior) (dir : Dir) (container_dn : String) :
    Except LdapError Unit × Dir × List LdapOp :=
  match getEntry dir container_dn with
  | some _ => (.ok (), dir, [.getOp container_dn ["objectclass"]])
  | none =>
      let ops := [LdapOp.getOp container_dn ["objectclass"], LdapOp.addOp container_dn]
      match addEntry beh dir (containerEntry container_dn) with
      | (.ok _, dir₁) => (.ok (), dir₁, ops)
      | (.error .duplicateEntry, dir₁) => (.ok (), dir₁, ops)
      | (.error err, dir₁) =>
          (.error (.notFound
              ("Failed to create container " ++ container_dn ++ ": " ++ errStr err)),
           dir₁, ops)

/-- Modelled from the spec: entry_attrs is the attribute mapping of the
incoming create request, built by framework code (the LDAPCreate base class
imported from baseldap, which is not under src/); per the data model of the
spec it maps attribute names to string values, and LDAP attribute names
compare case-insensitively. -/
abbrev Attrs := List (String × String)

/-- Lowercase normalization of an attribute name, used to compare LDAP
attribute names case-insensitively. -/
def lowerStr (s : String) : String := ⟨s.data.map Char.toLower⟩

/-- Case-insensitive key lookup in an attribute mapping, embedding the
membership test "objectcategory not in entry_attrs" at ou.py line 152. -/
def ciLookup : Attrs → String → Option String
  | [], _ => none
  | (k₁, v) :: rest, k => if lowerStr k₁ = lowerStr k then some v else ciLookup rest k

/-- Case-insensitive key assignment, embedding the item assignment at
ou.py line 153: replace the value stored under a matching key, or append
the new pair when the key is absent. -/
def ciSet (attrs : Attrs) (k v : String) : Attrs :=
  if (ciLookup attrs k).isSome then
    attrs.map (fun p => if lowerStr p.1 = lowerStr k then (p.1, v) else p)
  else attrs ++ [(k, v)]

/-- The computed default written at ou.py line 153. -/
def defaultObjectCategory (basedn : String) : String :=
  "CN=altOrganizationalUnit,CN=schema," ++ basedn

/-- ou_add.pre_callback, ou.py lines 128 to 155: ensure the container
exists, then default objectCategory when the request did not supply it, and
return the DN unchanged. The result carries the returned DN and attribute
mapping (or the raised error), the directory after, and the trace of
directory calls issued. -/
def pre_callback (basedn : String) (beh : AddBehavior) (dir : Dir)
    (dn : String) (entry_attrs : Attrs) :
    Except LdapError (String × Attrs) × Dir × List LdapOp :=
  match ensureContainer beh dir (containerDN basedn) with
  | (.ok _, dir₁, ops) =>
      (.ok (dn,
        if (ciLookup entry_attrs "objectcategory").isSome then entry_attrs
        else ciSet entry_attrs "objectCategory" (defaultObjectCategory basedn)),
       dir₁, ops)
  | (.error e, dir₁, ops) => (.error e, dir₁, ops)

/-- Modelled from the spec: the enclosing create request (LDAPCreate.execute
in baseldap, which is not under src/) runs pre_callback and then delegates
the actual child-entry write to the directory layer, per CreateChildEntry
step 3 of the spec; a pre_callback failure aborts the request before the
child write. -/
def CreateChildEntry (basedn : String) (beh : AddBehavior) (dir : Dir)
    (dn : String) (entry_attrs : Attrs) :
    Except LdapError String × Dir × List LdapOp :=
  match pre_callback basedn beh dir dn entry_attrs with
  | (.ok (dn₁, attrs₁), dir₁, ops) =>
      let child : LdapEntry := { dn := dn₁, attrs := attrs₁.map (fun p => (p.1, [p.2])) }
      match addEntry .normal dir₁ child with
      | (.ok _, dir₂) => (.ok dn₁, dir₂, ops ++ [.addOp dn₁])
      | (.error e, dir₂) => (.error e, dir₂, ops ++ [.addOp dn₁])
  | (.error e, dir₁, ops) => (.error e, dir₁, ops)

/-- The number of directory entries stored at a given DN. -/
def entriesAt (dir : Dir) (d : String) : Nat :=
  (dir.filter (fun p => p.1 == d)).length

theorem getEntry_of_not_mem (dir : Dir) (d : String) (h : d ∉ dir.map Prod.fst) :
    getEntry dir d = none := by
  induction dir with
  | nil => rfl
  | cons p rest ih =>
      simp only [List.map_cons, List.mem_cons] at h
      push_neg at h
      simp only [getEntry]
      rw [if_neg (fun hk => h.1 hk.symm)]
      exact ih h.2

theorem filter_eq_nil_of_getEntry_none (dir : Dir) (d : String)
    (h : getEntry dir d = none) :
    dir.filter (fun p => p.1 == d) = [] := by
  induction dir with
  | nil => rfl
  | cons p rest ih =>
      obtain ⟨k, e⟩ := p
      simp only [getEntry] at h
      by_cases hk : k = d
      · rw [if_pos hk] at h; exact absurd h (by simp)
      · rw [if_neg hk] at h
        simp only [List.filter_cons]
        rw [if_neg (by simpa using hk)]
        exact ih h

theorem entriesAt_eq_one_of_found (dir : Dir) (d : String) (e : LdapEntry)
    (hwf : (dir.map Prod.fst).Nodup) (h : getEntry dir d = some e) :
    entriesAt dir d = 1 := by
  induction dir with
  | nil => simp [getEntry] at h
  | cons p rest ih =>
      obtain ⟨k, e₁⟩ := p
      simp only [List.map_cons, List.nodup_cons] at hwf
      simp only [getEntry] at h
      by_cases hk : k = d
      · subst hk
        have hnone : getEntry rest k = none := getEntry_of_not_mem rest k hwf.1
        simp only [entriesAt, List.filter_cons]
        rw [if_pos (by simp)]
        rw [filter_eq_nil_of_getEntry_none rest k hnone]
        rfl
      · rw [if_neg hk] at h
        have := ih hwf.2 h
        simp only [entriesAt, List.filter_cons] at this ⊢
        rw [if_neg (by simpa using hk)]
        exact this

theorem ciLookup_congr (attrs : Attrs) (k₁ k₂ : String) (h : lowerStr k₁ = lowerStr k₂) :
    ciLookup attrs k₁ = ciLookup attrs k₂ := by
  induction attrs with
  | nil => rfl
  | cons p rest ih =>
      obtain ⟨k, v⟩ := p
      simp only [ciLookup, h, ih]

theorem ciLookup_append_of_none (attrs l : Attrs) (k : String)
    (h : ciLookup attrs k = none) :
    ciLookup (attrs ++ l) k = ciLookup l k := by
  induction attrs with
  | nil => rfl
  | cons p rest ih =>
      obtain ⟨k₁, v⟩ := p
      simp only [ciLookup] at h ⊢
      by_cases hk : lowerStr k₁ = lowerStr k
      · rw [if_pos hk] at h; exact absurd h (by simp)
      · rw [if_neg hk] at h ⊢
        exact ih h

theorem ciLookup_append_of_some (attrs l : Attrs) (k : String) (v : String)
    (h : ciLookup attrs k = some v) :
    ciLookup (attrs ++ l) k = some v := by
  induction attrs with
  | nil => simp [ciLookup] at h
  | cons p rest ih =>
      obtain ⟨k₁, v₁⟩ := p
      simp only [ciLookup] at h ⊢
      by_cases hk : lowerStr k₁ = lowerStr k
      · rw [if_pos hk] at h ⊢; exact h
      · rw [if_neg hk] at h ⊢
        exact ih h

theorem ensureContainer_found (beh : AddBehavior) (dir : Dir) (C : String)
    (e : LdapEntry) (h : getEntry dir C = some e) :
    ensureContainer beh dir C = (.ok (), dir, [.getOp C ["objectclass"]]) := by
  unfold ensureContainer
  rw [h]

theorem ensureContainer_absent_normal (dir : Dir) (C : String)
    (h : getEntry dir C = none) :
    ensureContainer .normal dir C =
      (.ok (), (C, containerEntry C) :: dir,
       [.getOp C ["objectclass"], .addOp C]) := by
  unfold ensureContainer
  rw [h]
  simp [addEntry, containerEntry, h]

theorem pre_callback_ok_shape (basedn : String) (beh : AddBehavior) (dir : Dir)
    (dn dn₁ : String) (attrs attrs₁ : Attrs) (dir₁ : Dir) (ops : List LdapOp)
    (hok : pre_callback basedn beh dir dn attrs = (.ok (dn₁, attrs₁), dir₁, ops)) :
    dn₁ = dn ∧
    (((ciLookup attrs "objectcategory").isSome = true ∧ attrs₁ = attrs) ∨
      (ciLookup attrs "objectcategory" = none ∧
        attrs₁ = attrs ++ [("objectCategory", defaultObjectCategory basedn)])) := by
  unfold pre_callback at hok
  split at hok
  · simp only [Prod.mk.injEq, Except.ok.injEq] at hok
    obtain ⟨⟨hdn, hattrs⟩, -, -⟩ := hok
    refine ⟨hdn.symm, ?_⟩
    by_cases hcat : (ciLookup attrs "objectcategory").isSome
    · left
      refine ⟨hcat, ?_⟩
      rw [if_pos hcat] at hattrs
      exact hattrs.symm
    · right
      have hnone : ciLookup attrs "objectcategory" = none := by
        cases h : ciLookup attrs "objectcategory" with
        | none => rfl
        | some v => rw [h] at hcat; simp at hcat
      refine ⟨hnone, ?_⟩
      rw [if_neg hcat] at hattrs
      unfold ciSet at hattrs
      have hcongr : ciLookup attrs "objectCategory" = ciLookup attrs "objectcategory" :=
        ciLookup_congr attrs "objectCategory" "objectcategory" (by decide)
      rw [hcongr, hnone] at hattrs
      simp only [Option.isSome_none, Bool.false_eq_true, if_false] at hattrs
      exact hattrs.symm
  · simp at hok

/-- C1: for every container DN C, over a well-formed directory and normal
directory semantics, calling EnsureContainer twice in sequence succeeds both
times, the second call leaves the directory unchanged and issues only the
probe read (no write), and exactly one container entry is left at C. -/
theorem ensureContainer_idempotent (C : String) (dir : Dir)
    (hwf : (dir.map Prod.fst).Nodup) :
    (ensureContainer .normal dir C).1 = .ok () ∧
    ensureContainer .normal (ensureContainer .normal dir C).2.1 C =
      (.ok (), (ensureContainer .normal dir C).2.1, [.getOp C ["objectclass"]]) ∧
    entriesAt (ensureContainer .normal dir C).2.1 C = 1 := by
  cases h : getEntry dir C with
  | some e =>
      have h₁ := ensureContainer_found .normal dir C e h
      rw [h₁]
      exact ⟨rfl, ensureContainer_found .normal dir C e h,
        entriesAt_eq_one_of_found dir C e hwf h⟩
  | none =>
      have h₁ := ensureContainer_absent_normal dir C h
      rw [h₁]
      have hfound : getEntry ((C, containerEntry C) :: dir) C = some (containerEntry C) := by
        simp [getEntry]
      refine ⟨rfl, ensureContainer_found .normal _ C _ hfound, ?_⟩
      simp only [entriesAt, List.filter_cons]
      rw [if_pos (by simp), filter_eq_nil_of_getEntry_none dir C h]
      rfl

/-- C1 witness at the base DN dc=example,dc=com and the empty directory. -/
theorem ensureContainer_idempotent_witness :
    (ensureContainer .normal [] "cn=altou,dc=example,dc=com").1 = .ok () ∧
    ensureContainer .normal
        (ensureContainer .normal [] "cn=altou,dc=example,dc=com").2.1
        "cn=altou,dc=example,dc=com" =
      (.ok (), (ensureContainer .normal [] "cn=altou,dc=example,dc=com").2.1,
       [.getOp "cn=altou,dc=example,dc=com" ["objectclass"]]) ∧
    entriesAt (ensureContainer .normal [] "cn=altou,dc=example,dc=com").2.1
        "cn=altou,dc=example,dc=com" = 1 :=
  ensureContainer_idempotent "cn=altou,dc=example,dc=com" [] (by simp)

/-- C2: when the container is absent and a concurrent caller wins the race,
so that the container write fails with DuplicateEntry, pre_callback
suppresses the error: no error is surfaced and the create proceeds with the
given DN. -/
theorem duplicateEntry_suppressed (basedn : String) (dir : Dir) (dn : String)
    (attrs : Attrs) (h : getEntry dir (containerDN basedn) = none) :
    ((pre_callback basedn .concurrentCreate dir dn attrs).1.toOption.map Prod.fst)
      = some dn := by
  unfold pre_callback ensureContainer
  rw [h]
  simp [addEntry, Except.toOption]

/-- C2 witness: empty directory, racing caller, concrete request. -/
theorem duplicateEntry_suppressed_witness :
    ((pre_callback "dc=example,dc=com" .concurrentCreate []
        "ou=Engineering,cn=altou,dc=example,dc=com"
        [("ou", "Engineering")]).1.toOption.map Prod.fst)
      = some "ou=Engineering,cn=altou,dc=example,dc=com" :=
  duplicateEntry_suppressed "dc=example,dc=com" []
    "ou=Engineering,cn=altou,dc=example,dc=com" [("ou", "Engineering")] rfl

/-- C3: when the container write fails with a generic error (not
DuplicateEntry), the enclosing create fails with a NotFound error whose
reason names the container DN and the underlying cause, the directory is
left unchanged, and no child entry is written at the requested DN. -/
theorem genericFailure_aborts_create (basedn : String) (dir : Dir) (dn : String)
    (attrs : Attrs) (msg : String)
    (hc : getEntry dir (containerDN basedn) = none)
    (hchild : getEntry dir dn = none) :
    CreateChildEntry basedn (.genericFailure msg) dir dn attrs =
      (.error (.notFound
          ("Failed to create container " ++ containerDN basedn ++ ": " ++ msg)),
       dir,
       [.getOp (containerDN basedn) ["objectclass"], .addOp (containerDN basedn)]) ∧
    getEntry (CreateChildEntry basedn (.genericFailure msg) dir dn attrs).2.1 dn
      = none := by
  have heq : CreateChildEntry basedn (.genericFailure msg) dir dn attrs =
      (.error (.notFound
          ("Failed to create container " ++ containerDN basedn ++ ": " ++ msg)),
       dir,
       [.getOp (containerDN basedn) ["objectclass"], .addOp (containerDN basedn)]) := by
    unfold CreateChildEntry pre_callback ensureContainer
    rw [hc]
    simp [addEntry, errStr]
  refine ⟨heq, ?_⟩
  rw [heq]
  exact hchild

/-- C3 witness: empty directory, injected generic failure. -/
theorem genericFailure_aborts_create_witness :
    CreateChildEntry "dc=example,dc=com" (.genericFailure "io error") []
        "ou=Engineering,cn=altou,dc=example,dc=com" [("ou", "Engineering")] =
      (.error (.notFound
          ("Failed to create container " ++ containerDN "dc=example,dc=com"
            ++ ": " ++ "io error")),
       [],
       [.getOp (containerDN "dc=example,dc=com") ["objectclass"],
        .addOp (containerDN "dc=example,dc=com")]) ∧
    getEntry (CreateChildEntry "dc=example,dc=com" (.genericFailure "io error") []
        "ou=Engineering,cn=altou,dc=example,dc=com" [("ou", "Engineering")]).2.1
        "ou=Engineering,cn=altou,dc=example,dc=com" = none :=
  genericFailure_aborts_create "dc=example,dc=com" []
    "ou=Engineering,cn=altou,dc=example,dc=com" [("ou", "Engineering")]
    "io error" rfl rfl

/-- C4: a request whose attribute map carries no object-category key, under
any casing, comes out of a successful pre_callback with objectCategory equal
to the computed default CN=altOrganizationalUnit,CN=schema,basedn. -/
theorem objectCategory_defaulted (basedn : String) (beh : AddBehavior) (dir : Dir)
    (dn dn₁ : String) (attrs attrs₁ : Attrs) (dir₁ : Dir) (ops : List LdapOp)
    (hmiss : ciLookup attrs "objectcategory" = none)
    (hok : pre_callback basedn beh dir dn attrs = (.ok (dn₁, attrs₁), dir₁, ops)) :
    ciLookup attrs₁ "objectCategory" = some (defaultObjectCategory basedn) := by
  obtain ⟨-, hshape⟩ :=
    pre_callback_ok_shape basedn beh dir dn dn₁ attrs attrs₁ dir₁ ops hok
  rcases hshape with ⟨hsome, -⟩ | ⟨-, hattrs⟩
  · rw [hmiss] at hsome
    simp at hsome
  · rw [hattrs]
    rw [ciLookup_append_of_none attrs _ _
      (by rw [ciLookup_congr attrs "objectCategory" "objectcategory" (by decide)]
          exact hmiss)]
    simp [ciLookup]

/-- C4 witness: a request supplying only the ou attribute. -/
theorem objectCategory_defaulted_witness :
    ciLookup
        [("ou", "Engineering"),
         ("objectCategory", defaultObjectCategory "dc=example,dc=com")]
        "objectCategory" = some (defaultObjectCategory "dc=example,dc=com") :=
  objectCategory_defaulted "dc=example,dc=com" .normal []
    "ou=Engineering,cn=altou,dc=example,dc=com"
    "ou=Engineering,cn=altou,dc=example,dc=com"
    [("ou", "Engineering")]
    [("ou", "Engineering"),
     ("objectCategory", defaultObjectCategory "dc=example,dc=com")]
    [("cn=altou,dc=example,dc=com", containerEntry "cn=altou,dc=example,dc=com")]
    [.getOp "cn=altou,dc=example,dc=com" ["objectclass"],
     .addOp "cn=altou,dc=example,dc=com"]
    rfl rfl

/-- C5: a request whose attribute map already carries an object-category
value, under any key casing, comes out of a successful pre_callback with the
attribute map entirely unchanged: the supplied value is preserved and the
default is not applied. -/
theorem objectCategory_preserved (basedn : String) (beh : AddBehavior) (dir : Dir)
    (dn dn₁ : String) (attrs attrs₁ : Attrs) (dir₁ : Dir) (ops : List LdapOp)
    (hpres : (ciLookup attrs "objectcategory").isSome = true)
    (hok : pre_callback basedn beh dir dn attrs = (.ok (dn₁, attrs₁), dir₁, ops)) :
    attrs₁ = attrs := by
  obtain ⟨-, hshape⟩ :=
    pre_callback_ok_shape basedn beh dir dn dn₁ attrs attrs₁ dir₁ ops hok
  rcases hshape with ⟨-, h⟩ | ⟨hnone, -⟩
  · exact h
  · rw [hnone] at hpres
    simp at hpres

/-- C5 witness: the object-category value is supplied under the mixed casing
ObjectCategory and survives unchanged. -/
theorem objectCategory_preserved_witness :
    (ciLookup [("ou", "Engineering"), ("ObjectCategory", "CN=Custom,CN=schema,dc=example,dc=com")]
        "objectcategory").isSome = true ∧
    ([("ou", "Engineering"), ("ObjectCategory", "CN=Custom,CN=schema,dc=example,dc=com")] : Attrs)
      = [("ou", "Engineering"), ("ObjectCategory", "CN=Custom,CN=schema,dc=example,dc=com")] :=
  ⟨rfl,
   objectCategory_preserved "dc=example,dc=com" .normal []
    "ou=Engineering,cn=altou,dc=example,dc=com"
    "ou=Engineering,cn=altou,dc=example,dc=com"
    [("ou", "Engineering"), ("ObjectCategory", "CN=Custom,CN=schema,dc=example,dc=com")]
    [("ou", "Engineering"), ("ObjectCategory", "CN=Custom,CN=schema,dc=example,dc=com")]
    [("cn=altou,dc=example,dc=com", containerEntry "cn=altou,dc=example,dc=com")]
    [.getOp "cn=altou,dc=example,dc=com" ["objectclass"],
     .addOp "cn=altou,dc=example,dc=com"]
    rfl rfl⟩

/-- C6: when the container entry is absent, EnsureContainer creates at
cn=altou,basedn exactly the minimal container entry with object classes
nsContainer and top and with cn=altou as its only other attribute. -/
theorem container_created_minimal (basedn : String) (dir : Dir)
    (h : getEntry dir (containerDN basedn) = none) :
    ensureContainer .normal dir (containerDN basedn) =
      (.ok (),
       (containerDN basedn,
         { dn := containerDN basedn
           attrs := [("objectclass", ["nsContainer", "top"]), ("cn", ["altou"])] }) :: dir,
       [.getOp (containerDN basedn) ["objectclass"], .addOp (containerDN basedn)]) ∧
    containerDN basedn = "cn=altou," ++ basedn := by
  exact ⟨ensureContainer_absent_normal dir (containerDN basedn) h, rfl⟩

/-- C6 witness: empty directory, base DN dc=example,dc=com. -/
theorem container_created_minimal_witness :
    ensureContainer .normal [] (containerDN "dc=example,dc=com") =
      (.ok (),
       (containerDN "dc=example,dc=com",
         { dn := containerDN "dc=example,dc=com"
           attrs := [("objectclass", ["nsContainer", "top"]), ("cn", ["altou"])] }) :: [],
       [.getOp (containerDN "dc=example,dc=com") ["objectclass"],
        .addOp (containerDN "dc=example,dc=com")]) ∧
    containerDN "dc=example,dc=com" = "cn=altou," ++ "dc=example,dc=com" :=
  container_created_minimal "dc=example,dc=com" [] rfl

/-- C7: when the container entry exists, the existence probe reads the
container DN requesting only the objectclass attribute, and ensureContainer
returns successfully with the directory unchanged and no write issued,
under every add behavior. -/
theorem ensureContainer_probe_noop (beh : AddBehavior) (dir : Dir) (C : String)
    (e : LdapEntry) (h : getEntry dir C = some e) :
    ensureContainer beh dir C = (.ok (), dir, [.getOp C ["objectclass"]]) :=
  ensureContainer_found beh dir C e h

/-- C7 witness: directory already holding the container entry. -/
theorem ensureContainer_probe_noop_witness :
    ensureContainer .normal
        [("cn=altou,dc=example,dc=com", containerEntry "cn=altou,dc=example,dc=com")]
        "cn=altou,dc=example,dc=com" =
      (.ok (),
       [("cn=altou,dc=example,dc=com", containerEntry "cn=altou,dc=example,dc=com")],
       [.getOp "cn=altou,dc=example,dc=com" ["objectclass"]]) :=
  ensureContainer_probe_noop .normal
    [("cn=altou,dc=example,dc=com", containerEntry "cn=altou,dc=example,dc=com")]
    "cn=altou,dc=example,dc=com" (containerEntry "cn=altou,dc=example,dc=com") rfl

/-- C8: a successful pre_callback defaults no key other than
object-category: every key whose lowercase form differs from objectcategory
keeps the same value, and in particular stays absent when it was absent. -/
theorem pre_callback_frames_other_keys (basedn : String) (beh : AddBehavior)
    (dir : Dir) (dn dn₁ : String) (attrs attrs₁ : Attrs) (dir₁ : Dir)
    (ops : List LdapOp) (k : String)
    (hk : lowerStr k ≠ "objectcategory")
    (hok : pre_callback basedn beh dir dn attrs = (.ok (dn₁, attrs₁), dir₁, ops)) :
    ciLookup attrs₁ k = ciLookup attrs k := by
  obtain ⟨-, hshape⟩ :=
    pre_callback_ok_shape basedn beh dir dn dn₁ attrs attrs₁ dir₁ ops hok
  rcases hshape with ⟨-, h⟩ | ⟨-, h⟩
  · rw [h]
  · rw [h]
    cases hcl : ciLookup attrs k with
    | some v => exact ciLookup_append_of_some attrs _ k v hcl
    | none =>
        rw [ciLookup_append_of_none attrs _ k hcl]
        have hoc : lowerStr "objectCategory" = "objectcategory" := by decide
        have hne : ¬ (lowerStr "objectCategory" = lowerStr k) := by
          rw [hoc]
          exact fun he => hk he.symm
        simp only [ciLookup]
        rw [if_neg hne]

/-- C8 witness: the ou key and the absent description key are untouched when
the default is filled in. -/
theorem pre_callback_frames_other_keys_witness :
    ciLookup
        [("ou", "Engineering"),
         ("objectCategory", defaultObjectCategory "dc=example,dc=com")] "ou"
      = ciLookup [("ou", "Engineering")] "ou" :=
  pre_callback_frames_other_keys "dc=example,dc=com" .normal []
    "ou=Engineering,cn=altou,dc=example,dc=com"
    "ou=Engineering,cn=altou,dc=example,dc=com"
    [("ou", "Engineering")]
    [("ou", "Engineering"),
     ("objectCategory", defaultObjectCategory "dc=example,dc=com")]
    [("cn=altou,dc=example,dc=com", containerEntry "cn=altou,dc=example,dc=com")]
    [.getOp "cn=altou,dc=example,dc=com" ["objectclass"],
     .addOp "cn=altou,dc=example,dc=com"]
    "ou" (by decide) rfl

/-- C9: on every invocation and under every add behavior, pre_callback
issues either exactly the probe read, or, only when the probe reported
not-found, the probe read followed by a single container write; it issues
no other directory call before the delegated child-entry write. -/
theorem pre_callback_at_most_two_roundtrips (basedn : String) (beh : AddBehavior)
    (dir : Dir) (dn : String) (attrs : Attrs) :
    (pre_callback basedn beh dir dn attrs).2.2 =
        [.getOp (containerDN basedn) ["objectclass"]] ∨
    (getEntry dir (containerDN basedn) = none ∧
      (pre_callback basedn beh dir dn attrs).2.2 =
        [.getOp (containerDN basedn) ["objectclass"], .addOp (containerDN basedn)]) := by
  cases h : getEntry dir (containerDN basedn) with
  | some e =>
      left
      unfold pre_callback
      rw [ensureContainer_found beh dir (containerDN basedn) e h]
  | none =>
      right
      refine ⟨rfl, ?_⟩
      unfold pre_callback ensureContainer
      rw [h]
      rcases hadd : addEntry beh dir (containerEntry (containerDN basedn)) with ⟨r, dir₁⟩
      cases r with
      | ok u => rfl
      | error e => cases e <;> rfl

/-- C10: on every successful run, pre_callback returns exactly the DN it
was given, whichever branch was taken. -/
theorem pre_callback_returns_dn (basedn : String) (beh : AddBehavior) (dir : Dir)
    (dn dn₁ : String) (attrs attrs₁ : Attrs) (dir₁ : Dir) (ops : List LdapOp)
    (hok : pre_callback basedn beh dir dn attrs = (.ok (dn₁, attrs₁), dir₁, ops)) :
    dn₁ = dn :=
  (pre_callback_ok_shape basedn beh dir dn dn₁ attrs attrs₁ dir₁ ops hok).1

/-- C10 witness: the returned DN equals the requested DN on a concrete run. -/
theorem pre_callback_returns_dn_witness :
    "ou=Engineering,cn=altou,dc=example,dc=com"
      = "ou=Engineering,cn=altou,dc=example,dc=com" :=
  pre_callback_returns_dn "dc=example,dc=com" .normal []
    "ou=Engineering,cn=altou,dc=example,dc=com"
    "ou=Engineering,cn=altou,dc=example,dc=com"
    [("ou", "Engineering")]
    [("ou", "Engineering"),
     ("objectCategory", defaultObjectCategory "dc=example,dc=com")]
    [("cn=altou,dc=example,dc=com", containerEntry "cn=altou,dc=example,dc=com")]
    [.getOp "cn=altou,dc=example,dc=com" ["objectclass"],
     .addOp "cn=altou,dc=example,dc=com"]
    rfl

end OuPlugin
